import Mathlib

/-!
Verification of the dental clinic management system (Python sources in
`db.py`, `ui/patient_dashboard.py`, `ui/staff_dashboard.py`) against its
natural-language specification.

The relational store is modelled as an explicit record of tables (lists of
rows) plus the AUTO_INCREMENT counters; each UI operation becomes a pure
state-transforming function translated from the SQL statements it issues.
The bcrypt library used by `hash_password` / `check_password` is modelled
parametrically over an abstract key-derivation function applied to the
72-byte-truncated password and a salt, following bcrypt's documented
behaviour (silent truncation of passwords at 72 bytes; `checkpw` raises on
a malformed hash string, which `check_password` catches and turns into
`False`).
-/

/-! ### Credential store: model of db.py hash_password / check_password -/

/-- Model of the bcrypt hash string produced by
`bcrypt.hashpw(plain.encode("utf-8"), bcrypt.gensalt()).decode("utf-8")`
in `hash_password` (db.py). Plaintexts and hash strings are byte lists.
The random salt drawn by `bcrypt.gensalt()` is an explicit argument; `kdf`
abstracts the bcrypt key-derivation core, which bcrypt applies to the
password truncated to its first 72 bytes. The result encodes the salt and
digest in a parseable shape (byte 36 is the leading dollar sign of a
bcrypt modular-crypt string). -/
def hash_password (kdf : List Nat → List Nat → List Nat)
    (salt plain : List Nat) : List Nat :=
  36 :: salt.length :: (salt ++ kdf (plain.take 72) salt)

/-- Parse a bcrypt hash string back into its salt and digest; `none` on a
malformed input (bcrypt's `checkpw` raises `ValueError` on such input). -/
def parseBcryptHash : List Nat → Option (List Nat × List Nat)
  | 36 :: n :: rest =>
      if n ≤ rest.length then some (rest.take n, rest.drop n) else none
  | _ => none

/-- Model of `check_password` (db.py): re-derive the digest from the
plaintext (truncated to 72 bytes, as bcrypt does) and the stored salt and
compare. The `try/except: return False` around `bcrypt.checkpw` is the
`none` branch: a hash string that does not parse yields `false` rather
than an exception. -/
def check_password (kdf : List Nat → List Nat → List Nat)
    (plain hashed : List Nat) : Bool :=
  match parseBcryptHash hashed with
  | none => false
  | some (salt, digest) => kdf (plain.take 72) salt == digest

theorem take_len_append {α : Type} (l r : List α) : (l ++ r).take l.length = l := by
  induction l with
  | nil => rfl
  | cons a t ih => simp [List.take_succ_cons, ih]

theorem drop_len_append {α : Type} (l r : List α) : (l ++ r).drop l.length = r := by
  induction l with
  | nil => rfl
  | cons a t ih => simp [ih]

theorem parse_hash_password (kdf : List Nat → List Nat → List Nat)
    (salt plain : List Nat) :
    parseBcryptHash (hash_password kdf salt plain)
      = some (salt, kdf (plain.take 72) salt) := by
  simp [hash_password, parseBcryptHash, take_len_append, drop_len_append]

example : check_password (fun p _ => p) [7, 8] (hash_password (fun p _ => p) [1] [7, 8]) = true := by
  decide

example : check_password (fun p _ => p) [] [] = false := by decide

/-! ### Time format validation (patient booking dialog) -/

theorem char_eq_of_toNat_eq {a b : Char} (h : a.toNat = b.toNat) : a = b := by
  apply Char.eq_of_val_eq
  exact UInt32.ext h

/-- Character for a decimal digit (spec-side helper for writing canonical
HH:MM strings). -/
def digitChar (n : Nat) : Char :=
  match n with
  | 0 => '0' | 1 => '1' | 2 => '2' | 3 => '3' | 4 => '4'
  | 5 => '5' | 6 => '6' | 7 => '7' | 8 => '8' | _ => '9'

theorem digitChar_toNat (n : Nat) (h : n ≤ 9) : (digitChar n).toNat = 48 + n := by
  interval_cases n <;> rfl

theorem digitChar_of_toNat (c : Char) (h1 : 48 ≤ c.toNat) (h2 : c.toNat ≤ 57) :
    digitChar (c.toNat - 48) = c := by
  have h : c.toNat = 48 ∨ c.toNat = 49 ∨ c.toNat = 50 ∨ c.toNat = 51 ∨ c.toNat = 52
      ∨ c.toNat = 53 ∨ c.toNat = 54 ∨ c.toNat = 55 ∨ c.toNat = 56 ∨ c.toNat = 57 := by omega
  rcases h with h|h|h|h|h|h|h|h|h|h <;>
    · rw [h]
      exact char_eq_of_toNat_eq (by rw [h]; decide)

/-- The ASCII decimal digits 0..9: exactly the characters the decimal
digit class of Python's re module matches among ASCII code points. The
full Unicode class is the nd parameter of validTimeRegex. -/
def isDigitCh (c : Char) : Bool := decide (48 ≤ c.toNat ∧ c.toNat ≤ 57)

/-- The ASCII instance of the anchored time regex of BookingDialog.book
(patient_dashboard.py): two hour digits in 00..23, a colon (code point
58), and two minute digits in 00..59, with the decimal digit class
restricted to ASCII. The regex as Python executes it is validTimeRegex;
the two coincide on ASCII strings (validTimeRegex_eq_on_ascii). -/
def validTimeHHMM (s : List Char) : Bool :=
  match s with
  | [h1, h2, c, m1, m2] =>
      ((decide (h1.toNat = 48 ∨ h1.toNat = 49) && isDigitCh h2)
        || (decide (h1.toNat = 50) && decide (48 ≤ h2.toNat ∧ h2.toNat ≤ 51)))
      && decide (c.toNat = 58)
      && (decide (48 ≤ m1.toNat ∧ m1.toNat ≤ 53) && isDigitCh m2)
  | _ => false

/-- Modelled from the spec: the canonical character sequence of a
24-hour HH:MM clock time. -/
def timeChars (h m : Nat) : List Char :=
  [digitChar (h / 10), digitChar (h % 10), ':', digitChar (m / 10), digitChar (m % 10)]

/-- Modelled from the spec: a string is a valid 24-hour HH:MM time in
00:00..23:59 exactly when it is the canonical rendering of some hour
below 24 and minute below 60. -/
def isCanonicalTime (s : List Char) : Prop :=
  ∃ h m, h < 24 ∧ m < 60 ∧ s = timeChars h m

/-- The regex of BookingDialog.book accepts exactly the canonical
24-hour HH:MM strings. -/
theorem validTimeHHMM_iff (s : List Char) :
    validTimeHHMM s = true ↔ isCanonicalTime s := by
  constructor
  · intro hv
    rcases s with _ | ⟨a, _ | ⟨b, _ | ⟨c, _ | ⟨d, _ | ⟨e, rest⟩⟩⟩⟩⟩
    · simp [validTimeHHMM] at hv
    · simp [validTimeHHMM] at hv
    · simp [validTimeHHMM] at hv
    · simp [validTimeHHMM] at hv
    · simp [validTimeHHMM] at hv
    · cases rest with
      | cons f t => exact absurd hv (by simp [validTimeHHMM])
      | nil =>
        simp only [validTimeHHMM, isDigitCh, Bool.and_eq_true, Bool.or_eq_true,
          decide_eq_true_eq] at hv
        obtain ⟨⟨hh, hc⟩, hd, he⟩ := hv
        refine ⟨(a.toNat - 48) * 10 + (b.toNat - 48),
          (d.toNat - 48) * 10 + (e.toNat - 48), by omega, by omega, ?_⟩
        have e1 : digitChar (((a.toNat - 48) * 10 + (b.toNat - 48)) / 10) = a := by
          have hq : ((a.toNat - 48) * 10 + (b.toNat - 48)) / 10 = a.toNat - 48 := by omega
          rw [hq]
          exact digitChar_of_toNat a (by omega) (by omega)
        have e2 : digitChar (((a.toNat - 48) * 10 + (b.toNat - 48)) % 10) = b := by
          have hq : ((a.toNat - 48) * 10 + (b.toNat - 48)) % 10 = b.toNat - 48 := by omega
          rw [hq]
          exact digitChar_of_toNat b (by omega) (by omega)
        have e3 : digitChar (((d.toNat - 48) * 10 + (e.toNat - 48)) / 10) = d := by
          have hq : ((d.toNat - 48) * 10 + (e.toNat - 48)) / 10 = d.toNat - 48 := by omega
          rw [hq]
          exact digitChar_of_toNat d (by omega) (by omega)
        have e4 : digitChar (((d.toNat - 48) * 10 + (e.toNat - 48)) % 10) = e := by
          have hq : ((d.toNat - 48) * 10 + (e.toNat - 48)) % 10 = e.toNat - 48 := by omega
          rw [hq]
          exact digitChar_of_toNat e (by omega) (by omega)
        have e5 : c = ':' := char_eq_of_toNat_eq (by rw [hc]; decide)
        simp [timeChars, e1, e2, e3, e4, e5]
  · rintro ⟨h, m, hh, hm, rfl⟩
    have d1 : (digitChar (h / 10)).toNat = 48 + h / 10 := digitChar_toNat _ (by omega)
    have d2 : (digitChar (h % 10)).toNat = 48 + h % 10 := digitChar_toNat _ (by omega)
    have d3 : (digitChar (m / 10)).toNat = 48 + m / 10 := digitChar_toNat _ (by omega)
    have d4 : (digitChar (m % 10)).toNat = 48 + m % 10 := digitChar_toNat _ (by omega)
    have hc : (':' : Char).toNat = 58 := by decide
    simp only [timeChars, validTimeHHMM, isDigitCh, d1, d2, d3, d4, hc,
      Bool.and_eq_true, Bool.or_eq_true, decide_eq_true_eq, true_and, and_true]
    omega

/-- Model of the time regex of BookingDialog.book (patient_dashboard.py)
as Python's re module executes it on a str: the literal positions are
ASCII ([01], 2, 0..3, the colon, 0..5), while each position of the
decimal digit class matches any Unicode decimal digit. That class is the
re library's Unicode Nd table, abstracted here as the parameter nd;
theorems constrain nd to agree with the ASCII digits on ASCII code
points, which is all the Nd table fixes there. -/
def validTimeRegex (nd : Char → Bool) : List Char → Bool
  | [h1, h2, c, m1, m2] =>
      ((decide (h1.toNat = 48 ∨ h1.toNat = 49) && nd h2)
        || (decide (h1.toNat = 50) && decide (48 ≤ h2.toNat ∧ h2.toNat ≤ 51)))
      && decide (c.toNat = 58)
      && (decide (48 ≤ m1.toNat ∧ m1.toNat ≤ 53) && nd m2)
  | _ => false

/-- On ASCII strings the regex with any conforming Unicode digit class
coincides with its ASCII instance. -/
theorem validTimeRegex_eq_on_ascii (nd : Char → Bool)
    (hnd : ∀ c : Char, c.toNat ≤ 127 → nd c = isDigitCh c)
    (s : List Char) (hascii : ∀ c ∈ s, c.toNat ≤ 127) :
    validTimeRegex nd s = validTimeHHMM s := by
  rcases s with _ | ⟨a, _ | ⟨b, _ | ⟨c, _ | ⟨d, _ | ⟨e, rest⟩⟩⟩⟩⟩
  · rfl
  · rfl
  · rfl
  · rfl
  · rfl
  · cases rest with
    | cons f t => rfl
    | nil =>
        have hb : nd b = isDigitCh b := hnd b (hascii b (by simp))
        have he2 : nd e = isDigitCh e := hnd e (hascii e (by simp))
        simp only [validTimeRegex, validTimeHHMM, hb, he2]

theorem validTimeRegex_ne_nil (nd : Char → Bool) {s : List Char}
    (h : validTimeRegex nd s = true) : s.isEmpty = false := by
  cases s with
  | nil => exact absurd h (by simp [validTimeRegex])
  | cons a t => rfl

/-! ### Relational state: the five tables of create_tables (db.py) -/

/-- Row of the staff table (db.py create_tables). The created_at
timestamp column is omitted: no modelled operation reads it. -/
structure Staff where
  id : Nat
  name : String
  role : String
  email : String
  password : String
  phone : String
deriving Repr, DecidableEq

/-- Row of the patients table (db.py create_tables). -/
structure Patient where
  id : Nat
  name : String
  age : Nat
  sex : String
  email : String
  password : String
deriving Repr, DecidableEq

/-- Row of the services table (db.py create_tables). DECIMAL(10,2) prices
are represented exactly in centavos. -/
structure Service where
  id : Nat
  code : String
  name : String
  description : String
  price : Nat
  active : Bool
deriving Repr, DecidableEq

/-- The status ENUM of the appointments table (db.py create_tables). -/
inductive Status where
  | Pending
  | Confirmed
  | Completed
  | Cancelled
deriving Repr, DecidableEq

/-- Row of the appointments table (db.py create_tables). Time strings are
lists of characters so that the HH:MM validation can be stated on them;
the date is an opaque payload. -/
structure Appointment where
  id : Nat
  patient_id : Nat
  service_id : Nat
  date : String
  time : List Char
  notes : List Char
  status : Status
deriving Repr, DecidableEq

/-- Row of the transactions table (db.py create_tables); amount in
centavos. The paid_at timestamp column is omitted: no modelled operation
reads it. -/
structure Transaction where
  id : Nat
  patient_id : Nat
  service_id : Nat
  amount : Nat
deriving Repr, DecidableEq

/-- The clinic_management database: the five tables of create_tables
(db.py) plus the AUTO_INCREMENT counter of each table. -/
structure ClinicDB where
  staff : List Staff
  patients : List Patient
  services : List Service
  appointments : List Appointment
  transactions : List Transaction
  nextStaffId : Nat
  nextPatientId : Nat
  nextServiceId : Nat
  nextAppointmentId : Nat
  nextTransactionId : Nat
deriving Repr, DecidableEq

/-- A freshly provisioned database: empty tables, AUTO_INCREMENT at 1. -/
def emptyDB : ClinicDB :=
  { staff := []
    patients := []
    services := []
    appointments := []
    transactions := []
    nextStaffId := 1
    nextPatientId := 1
    nextServiceId := 1
    nextAppointmentId := 1
    nextTransactionId := 1 }

/-- Model of create_tables (db.py): CREATE TABLE IF NOT EXISTS for each of
the five tables. Schema creation changes no rows, so on the modelled
state it is the identity. -/
def create_tables (st : ClinicDB) : ClinicDB := st

/-- Number of transactions rows matching a (patient_id, service_id) pair,
as selected by the pre-insert existence check in
EditAppointmentDialog.save (staff_dashboard.py). -/
def txCount (st : ClinicDB) (pid sid : Nat) : Nat :=
  (st.transactions.filter (fun t => t.patient_id == pid && t.service_id == sid)).length

/-- The characters Python str.strip() removes: the code points for which
CPython's Py_UNICODE_ISSPACE holds — 0x09..0x0D, 0x1C..0x1F, the space
0x20, 0x85, the no-break space 0xA0, 0x1680, 0x2000..0x200A, 0x2028,
0x2029, 0x202F, 0x205F and 0x3000. -/
def pyIsSpace (c : Char) : Bool :=
  decide ((9 ≤ c.toNat ∧ c.toNat ≤ 13) ∨ (28 ≤ c.toNat ∧ c.toNat ≤ 31) ∨ c.toNat = 32
    ∨ c.toNat = 133 ∨ c.toNat = 160 ∨ c.toNat = 5760
    ∨ (8192 ≤ c.toNat ∧ c.toNat ≤ 8202) ∨ c.toNat = 8232 ∨ c.toNat = 8233
    ∨ c.toNat = 8239 ∨ c.toNat = 8287 ∨ c.toNat = 12288)

/-- Model of Python str.strip() on a list of characters: remove leading
and trailing characters from Python's whitespace set. -/
def pyStrip (s : List Char) : List Char :=
  ((s.dropWhile pyIsSpace).reverse.dropWhile pyIsSpace).reverse

/-! ### Seeder: seed_defaults (db.py) -/

/-- The four default staff rows inserted by seed_defaults (db.py),
starting at the given AUTO_INCREMENT value. hashFn is hash_password at
the moment of the call (bcrypt with a fresh random salt per row). -/
def defaultStaffRows (hashFn : String → String) (firstId : Nat) : List Staff :=
  [ { id := firstId, name := "Dr. Maria Santos", role := "Dentist",
      email := "maria.santos@clinic.local", password := hashFn "staff123",
      phone := "09171234567" },
    { id := firstId + 1, name := "Dr. John Reyes", role := "Dentist",
      email := "john.reyes@clinic.local", password := hashFn "staff123",
      phone := "09181234567" },
    { id := firstId + 2, name := "Ana Cruz", role := "Assistant",
      email := "ana.cruz@clinic.local", password := hashFn "staff123",
      phone := "09281234567" },
    { id := firstId + 3, name := "Carla Dizon", role := "Receptionist",
      email := "carla.dizon@clinic.local", password := hashFn "staff123",
      phone := "09391234567" } ]

/-- The fifteen-row service catalog inserted by seed_defaults (db.py),
with ids starting at the given AUTO_INCREMENT value and prices in
centavos; active defaults to 1. -/
def defaultServiceRows (firstId : Nat) : List Service :=
  [ { id := firstId, code := "CM-OPH", name := "Oral Prophylaxis",
      description := "Cleaning & polishing", price := 120000, active := true },
    { id := firstId + 1, code := "CM-FILL", name := "Dental Filling",
      description := "Composite filling for cavities", price := 250000, active := true },
    { id := firstId + 2, code := "CM-EXT", name := "Tooth Extraction",
      description := "Simple extraction", price := 180000, active := true },
    { id := firstId + 3, code := "CM-RCT", name := "Root Canal",
      description := "Therapy for infected tooth", price := 450000, active := true },
    { id := firstId + 4, code := "CM-WHT", name := "Teeth Whitening",
      description := "In-office bleaching", price := 350000, active := true },
    { id := firstId + 5, code := "CM-IMP", name := "Dental Implant",
      description := "Implant placement", price := 2000000, active := true },
    { id := firstId + 6, code := "CM-BRAC", name := "Orthodontic Braces",
      description := "Braces installation", price := 2500000, active := true },
    { id := firstId + 7, code := "CM-RTN", name := "Retainer Adjustment",
      description := "Adjustment or fitting", price := 200000, active := true },
    { id := firstId + 8, code := "CM-WIS", name := "Wisdom Tooth Removal",
      description := "Surgical extraction", price := 650000, active := true },
    { id := firstId + 9, code := "CM-GUM", name := "Gum Treatment",
      description := "Scaling & root planing", price := 320000, active := true },
    { id := firstId + 10, code := "CM-XRAY", name := "Dental X-Ray",
      description := "Panoramic imaging", price := 80000, active := true },
    { id := firstId + 11, code := "CM-PED", name := "Pediatric Check-Up",
      description := "Child dental exam", price := 100000, active := true },
    { id := firstId + 12, code := "CM-DEN", name := "Dentures Fitting",
      description := "Removable dentures", price := 1200000, active := true },
    { id := firstId + 13, code := "CM-EMR", name := "Emergency Visit",
      description := "Urgent dental care", price := 90000, active := true },
    { id := firstId + 14, code := "CM-VEN", name := "Veneers",
      description := "Porcelain veneer restoration", price := 800000, active := true } ]

/-- Model of seed_defaults (db.py): create_tables, then insert the
default staff only when the staff table is empty, the sample patient
only when the patients table is empty, and the 15-row catalog only when
the services table is empty. Each guard is the emptiness of the SELECT id
result for the table. -/
def seed_defaults (hashFn : String → String) (st : ClinicDB) : ClinicDB :=
  let st0 := create_tables st
  let st1 :=
    if st0.staff.isEmpty then
      { st0 with staff := st0.staff ++ defaultStaffRows hashFn st0.nextStaffId,
                 nextStaffId := st0.nextStaffId + 4 }
    else st0
  let st2 :=
    if st1.patients.isEmpty then
      { st1 with patients := st1.patients ++
          [ { id := st1.nextPatientId, name := "Juan Dela Cruz", age := 35,
              sex := "Male", email := "patient1@clinic.local",
              password := hashFn "patient123" } ],
                 nextPatientId := st1.nextPatientId + 1 }
    else st1
  if st2.services.isEmpty then
    { st2 with services := st2.services ++ defaultServiceRows st2.nextServiceId,
               nextServiceId := st2.nextServiceId + 15 }
  else st2

theorem isEmpty_append_cons {α : Type} (l : List α) (a : α) (r : List α) :
    (l ++ a :: r).isEmpty = false := by
  cases l <;> rfl

/-! ### Patient booking dialog: BookingDialog.book (patient_dashboard.py) -/

namespace BookingDialog

/-- Model of BookingDialog.book (patient_dashboard.py). The time input is
stripped of Python's surrounding whitespace; an empty stripped string is
rejected, then the HH:MM regex is applied (validTimeRegex, with the
Unicode decimal digit class abstracted as nd); on success one
appointments row is inserted with explicit status Pending. The returned
Bool is true exactly when the INSERT was issued (the success dialog
path); false covers both validation warnings, which return before
touching the database. Stripping of the notes field is mirrored from the
source. -/
def book (nd : Char → Bool) (st : ClinicDB) (patient_id service_id : Nat) (dt : String)
    (tm_input notes_input : List Char) : ClinicDB × Bool :=
  let tm := pyStrip tm_input
  let notes := pyStrip notes_input
  if tm.isEmpty then (st, false)
  else if !(validTimeRegex nd tm) then (st, false)
  else
    ({ st with
        appointments := st.appointments ++
          [ { id := st.nextAppointmentId, patient_id := patient_id,
              service_id := service_id, date := dt, time := tm,
              notes := notes, status := Status.Pending } ],
        nextAppointmentId := st.nextAppointmentId + 1 }, true)

end BookingDialog

/-! ### Staff edit-appointment dialog: EditAppointmentDialog.save
(staff_dashboard.py) -/

namespace EditAppointmentDialog

/-- Model of EditAppointmentDialog.save (staff_dashboard.py). The UPDATE
sets status and notes of the row whose id is the edited appointment's id,
with no check on the previous status. When the chosen status is
Completed, the existence check SELECT id FROM transactions WHERE
patient_id=.. AND service_id=.. runs; when it returns no row, the
service's price is read (price_row[0].price, or 0 when the service row is
absent) and one transactions row is inserted with that amount. -/
def save (st : ClinicDB) (app : Appointment) (newStatus : Status)
    (newNotes : List Char) : ClinicDB :=
  let st1 := { st with
    appointments := st.appointments.map (fun a =>
      if a.id = app.id then { a with status := newStatus, notes := newNotes } else a) }
  if newStatus = Status.Completed then
    let existing := st1.transactions.filter (fun t =>
      t.patient_id == app.patient_id && t.service_id == app.service_id)
    if existing.isEmpty then
      let price_row := st1.services.filter (fun s => s.id == app.service_id)
      let price := match price_row with
        | r :: _ => r.price
        | [] => 0
      { st1 with
          transactions := st1.transactions ++
            [ { id := st1.nextTransactionId, patient_id := app.patient_id,
                service_id := app.service_id, amount := price } ],
          nextTransactionId := st1.nextTransactionId + 1 }
    else st1
  else st1

/-- Fault model for EditAppointmentDialog.save (staff_dashboard.py): the
same control flow, with the transactions INSERT allowed to raise a
database error. The UPDATE was already committed on its own (the DB
wrapper commits each write independently; db.py query with commit=True),
so when the INSERT raises, the except branch reports the error (returned
Bool true) and the function returns with the status update kept and no
transactions row added — there is no rollback, retry or compensation. -/
def saveInsertFault (st : ClinicDB) (app : Appointment) (newStatus : Status)
    (newNotes : List Char) (insertRaises : Bool) : ClinicDB × Bool :=
  let st1 := { st with
    appointments := st.appointments.map (fun a =>
      if a.id = app.id then { a with status := newStatus, notes := newNotes } else a) }
  if newStatus = Status.Completed then
    let existing := st1.transactions.filter (fun t =>
      t.patient_id == app.patient_id && t.service_id == app.service_id)
    if existing.isEmpty then
      if insertRaises then (st1, true)
      else
        let price_row := st1.services.filter (fun s => s.id == app.service_id)
        let price := match price_row with
          | r :: _ => r.price
          | [] => 0
        ({ st1 with
            transactions := st1.transactions ++
              [ { id := st1.nextTransactionId, patient_id := app.patient_id,
                  service_id := app.service_id, amount := price } ],
            nextTransactionId := st1.nextTransactionId + 1 }, false)
    else (st1, false)
  else (st1, false)

/-- With no fault injected, the fault model coincides with save. -/
theorem saveInsertFault_no_fault (st : ClinicDB) (app : Appointment)
    (newStatus : Status) (newNotes : List Char) :
    saveInsertFault st app newStatus newNotes false = (save st app newStatus newNotes, false) := by
  unfold saveInsertFault save
  split
  · simp
    split <;> rfl
  · rfl

end EditAppointmentDialog

/-! ### Patient dashboard: cancel_appointment (patient_dashboard.py) -/

namespace PatientDashboard

/-- Model of PatientDashboard.cancel_appointment (patient_dashboard.py):
after the confirmation dialog answers Yes, UPDATE appointments SET
status='Cancelled' WHERE id=%s; answering No issues no statement. -/
def cancel_appointment (st : ClinicDB) (appointment_id : Nat)
    (confirmed : Bool) : ClinicDB :=
  if confirmed then
    { st with
        appointments := st.appointments.map (fun a =>
          if a.id = appointment_id then { a with status := Status.Cancelled } else a) }
  else st

end PatientDashboard

/-! ### Staff dashboard: hard deletes and the add-appointment form
(staff_dashboard.py) -/

namespace StaffDashboard

/-- A patients row is referenced when some appointments or transactions
row carries its id in patient_id — the FOREIGN KEY constraints declared
in create_tables (db.py). -/
def patientReferenced (st : ClinicDB) (pid : Nat) : Bool :=
  st.appointments.any (fun a => a.patient_id == pid)
    || st.transactions.any (fun t => t.patient_id == pid)

/-- A services row is referenced when some appointments or transactions
row carries its id in service_id — the FOREIGN KEY constraints declared
in create_tables (db.py). -/
def serviceReferenced (st : ClinicDB) (sid : Nat) : Bool :=
  st.appointments.any (fun a => a.service_id == sid)
    || st.transactions.any (fun t => t.service_id == sid)

/-- Model of StaffDashboard.delete_patient (staff_dashboard.py): after
confirmation, DELETE FROM patients WHERE id=%s. The relational engine
enforces the FOREIGN KEY constraints of create_tables with the default
restricting action, so the DELETE raises an error — caught and reported
by the except branch, returned Bool true — whenever a referencing row
exists, leaving every table unchanged; otherwise the matching patients
rows are removed. -/
def delete_patient (st : ClinicDB) (pid : Nat) (confirmed : Bool) :
    ClinicDB × Bool :=
  if confirmed then
    if patientReferenced st pid then (st, true)
    else ({ st with patients := st.patients.filter (fun p => !(p.id == pid)) }, false)
  else (st, false)

/-- Model of StaffDashboard.delete_service (staff_dashboard.py): after
confirmation, DELETE FROM services WHERE id=%s, with the same
foreign-key enforcement as delete_patient. -/
def delete_service (st : ClinicDB) (sid : Nat) (confirmed : Bool) :
    ClinicDB × Bool :=
  if confirmed then
    if serviceReferenced st sid then (st, true)
    else ({ st with services := st.services.filter (fun s => !(s.id == sid)) }, false)
  else (st, false)

/-- Model of the nested save() of the Add Appointment form in
StaffDashboard.render_appointments (staff_dashboard.py): the time field
text is stripped and then passed straight into INSERT INTO appointments
(patient_id, service_id, date, time, notes) — no format check of any
kind, and no status column, so the schema default Pending applies.
Whether the relational engine accepts the string as a TIME literal is
outside the application; it is abstracted by the dbAcceptsTime
parameter, and a rejection surfaces as the caught error (returned Bool
true). -/
def add_appointment_save (st : ClinicDB) (pid sid : Nat) (dt : String)
    (tm_input notes : List Char) (dbAcceptsTime : List Char → Bool) :
    ClinicDB × Bool :=
  let tm := pyStrip tm_input
  if dbAcceptsTime tm then
    ({ st with
        appointments := st.appointments ++
          [ { id := st.nextAppointmentId, patient_id := pid, service_id := sid,
              date := dt, time := tm, notes := notes, status := Status.Pending } ],
        nextAppointmentId := st.nextAppointmentId + 1 }, false)
  else (st, true)

end StaffDashboard

/-! ### Claim theorems -/

/-- C4 (amended): verify(plain, hash(plain)) is true for any plaintext;
and verify(plain, hash(other)) is false whenever plain and other differ
within their first 72 bytes, assuming the bcrypt key-derivation core is
collision-free per salt. (As stated, the claim fails for distinct
plaintexts sharing their first 72 bytes, since bcrypt silently truncates
passwords at 72 bytes — see the counterexample.) -/
theorem check_password_roundtrip_and_mismatch
    (kdf : List Nat → List Nat → List Nat)
    (hinj : ∀ p q s, kdf p s = kdf q s → p = q)
    (salt plain other : List Nat) :
    check_password kdf plain (hash_password kdf salt plain) = true ∧
    (plain.take 72 ≠ other.take 72 →
      check_password kdf plain (hash_password kdf salt other) = false) := by
  constructor
  · simp [check_password, parse_hash_password]
  · intro hne
    have hp := parse_hash_password kdf salt other
    simp only [check_password, hp]
    cases hbeq : (kdf (List.take 72 plain) salt == kdf (List.take 72 other) salt) with
    | false => rfl
    | true => exact absurd (hinj _ _ _ (eq_of_beq hbeq)) hne

/-- Witness for C4 at a concrete key-derivation function, salt and pair
of plaintexts differing in their first byte. -/
theorem check_password_roundtrip_and_mismatch_witness :
    check_password (fun p _ => p) [0] (hash_password (fun p _ => p) [] [0]) = true ∧
    check_password (fun p _ => p) [0] (hash_password (fun p _ => p) [] [1]) = false := by
  have h := check_password_roundtrip_and_mismatch (fun p _ => p) (fun p q s hpq => hpq) [] [0] [1]
  exact ⟨h.1, h.2 (by decide)⟩

/-- Counterexample to C4 as stated: two distinct plaintexts — 73 copies
of byte 97 versus 72 copies of byte 97 followed by byte 98 — agree on
their first 72 bytes, so verification accepts the wrong plaintext even
for an injective key-derivation core. -/
theorem check_password_truncation_cex :
    (List.replicate 73 97 : List Nat) ≠ List.replicate 72 97 ++ [98] ∧
    check_password (fun p _ => p) (List.replicate 73 97)
      (hash_password (fun p _ => p) [] (List.replicate 72 97 ++ [98])) = true := by
  decide

/-- C8: check_password is a total function; on any hash input that does
not parse as a bcrypt hash it returns false (the caught-exception branch
of the source) rather than raising. -/
theorem check_password_malformed_false (kdf : List Nat → List Nat → List Nat)
    (plain hashed : List Nat) (hm : parseBcryptHash hashed = none) :
    check_password kdf plain hashed = false := by
  simp [check_password, hm]

/-- Witness for C8 on the concrete malformed hash string [1, 2, 3]. -/
theorem check_password_malformed_false_witness :
    parseBcryptHash [1, 2, 3] = none ∧
    check_password (fun p _ => p) [5] [1, 2, 3] = false :=
  ⟨by decide, check_password_malformed_false (fun p _ => p) [5] [1, 2, 3] (by decide)⟩

/-- C3: seeding from a fresh database yields 4 staff rows, 1 patient row
and 15 service rows, and running schema provisioning plus seeding a
second time (with any salts drawn for the second run's password hashes)
changes nothing, because every seed step inserts only into an empty
table. -/
theorem seed_defaults_idempotent (hashFn hashFn2 : String → String) :
    (seed_defaults hashFn emptyDB).staff.length = 4 ∧
    (seed_defaults hashFn emptyDB).patients.length = 1 ∧
    (seed_defaults hashFn emptyDB).services.length = 15 ∧
    ∀ st : ClinicDB, seed_defaults hashFn2 (seed_defaults hashFn st) = seed_defaults hashFn st := by
  refine ⟨rfl, rfl, rfl, ?_⟩
  intro st
  unfold seed_defaults create_tables
  by_cases h1 : st.staff.isEmpty <;> by_cases h2 : st.patients.isEmpty <;>
    by_cases h3 : st.services.isEmpty <;>
      simp [h1, h2, h3, defaultStaffRows, defaultServiceRows, isEmpty_append_cons]

theorem isCanonicalTime_length {s : List Char} (h : isCanonicalTime s) : s.length = 5 := by
  obtain ⟨hh, m, _, _, rfl⟩ := h
  rfl

/-- C2 (amended): the booking dialog strips the time input of
surrounding whitespace (Python's whitespace set) and tests the result
against the source regex, whose decimal digit class matches any Unicode
decimal digit (the parameter nd, pinned to the ASCII digits on ASCII
code points): when the stripped input matches, exactly one appointments
row is inserted with status Pending and the stripped time; for any
other input (the empty string included) nothing is written; and on
ASCII strings the accepted stripped inputs are exactly the canonical
24-hour HH:MM times in 00:00..23:59. (As stated over the dialog's raw
input the claim fails: an input with whitespace around a valid time is
not itself a valid HH:MM string, yet a row is inserted — see the
counterexample.) -/
theorem book_validates_stripped_time (nd : Char → Bool)
    (hnd : ∀ c : Char, c.toNat ≤ 127 → nd c = isDigitCh c)
    (st : ClinicDB) (patient_id service_id : Nat) (dt : String)
    (tm notes : List Char) :
    (validTimeRegex nd (pyStrip tm) = true →
      BookingDialog.book nd st patient_id service_id dt tm notes
        = ({ st with
              appointments := st.appointments ++
                [ { id := st.nextAppointmentId, patient_id := patient_id,
                    service_id := service_id, date := dt, time := pyStrip tm,
                    notes := pyStrip notes, status := Status.Pending } ],
              nextAppointmentId := st.nextAppointmentId + 1 }, true)) ∧
    (validTimeRegex nd (pyStrip tm) = false →
      BookingDialog.book nd st patient_id service_id dt tm notes = (st, false)) ∧
    (∀ s : List Char, (∀ c ∈ s, c.toNat ≤ 127) →
      (validTimeRegex nd s = true ↔ isCanonicalTime s)) := by
  refine ⟨?_, ?_, ?_⟩
  · intro hv
    have hne : (pyStrip tm).isEmpty = false := validTimeRegex_ne_nil nd hv
    simp [BookingDialog.book, hne, hv]
  · intro hv
    by_cases he : (pyStrip tm).isEmpty
    · simp [BookingDialog.book, he]
    · simp [BookingDialog.book, he, hv]
  · intro s hascii
    rw [validTimeRegex_eq_on_ascii nd hnd s hascii]
    exact validTimeHHMM_iff s

/-- Witness for C2 at the ASCII instance of the digit class: 14:30
books one Pending row from a fresh database, and the non-time input 99
is rejected with no row. -/
theorem book_validates_stripped_time_witness :
    BookingDialog.book isDigitCh emptyDB 1 1 "2026-01-15" ['1', '4', ':', '3', '0'] []
      = ({ emptyDB with
            appointments :=
              [ { id := 1, patient_id := 1, service_id := 1, date := "2026-01-15",
                  time := ['1', '4', ':', '3', '0'], notes := [],
                  status := Status.Pending } ],
            nextAppointmentId := 2 }, true) ∧
    BookingDialog.book isDigitCh emptyDB 1 1 "2026-01-15" ['9', '9'] [] = (emptyDB, false) := by
  constructor
  · exact (book_validates_stripped_time isDigitCh (fun c hc => rfl) emptyDB 1 1
      "2026-01-15" ['1', '4', ':', '3', '0'] []).1 (by decide)
  · exact (book_validates_stripped_time isDigitCh (fun c hc => rfl) emptyDB 1 1
      "2026-01-15" ['9', '9'] []).2.1 (by decide)

/-- Counterexample to C2 as stated: the raw dialog input consisting of a
space followed by 14:30 is not a valid HH:MM string, yet book strips it
and inserts an appointments row instead of rejecting. -/
theorem book_unstripped_input_cex :
    ¬ isCanonicalTime (Char.ofNat 32 :: ['1', '4', ':', '3', '0']) ∧
    (BookingDialog.book isDigitCh emptyDB 1 1 "2026-01-15"
        (Char.ofNat 32 :: ['1', '4', ':', '3', '0']) []).2 = true ∧
    (BookingDialog.book isDigitCh emptyDB 1 1 "2026-01-15"
        (Char.ofNat 32 :: ['1', '4', ':', '3', '0']) []).1.appointments ≠ [] := by
  refine ⟨fun hc => by have h2 := isCanonicalTime_length hc; exact absurd h2 (by decide),
    by decide, by decide⟩

/-! ### Helper lemmas about EditAppointmentDialog.save -/

theorem save_tx_insert (st : ClinicDB) (app : Appointment) (nn : List Char) (P : Nat)
    (h0 : txCount st app.patient_id app.service_id = 0)
    (hp : (st.services.filter (fun s => s.id == app.service_id)).head?.map Service.price
        = some P) :
    EditAppointmentDialog.save st app Status.Completed nn
      = { st with
          appointments := st.appointments.map (fun a =>
            if a.id = app.id then { a with status := Status.Completed, notes := nn } else a),
          transactions := st.transactions ++
            [ { id := st.nextTransactionId, patient_id := app.patient_id,
                service_id := app.service_id, amount := P } ],
          nextTransactionId := st.nextTransactionId + 1 } := by
  have hfil : st.transactions.filter
      (fun t => t.patient_id == app.patient_id && t.service_id == app.service_id) = [] := by
    unfold txCount at h0
    exact List.length_eq_zero.mp h0
  unfold EditAppointmentDialog.save
  cases hq : st.services.filter (fun s => s.id == app.service_id) with
  | nil =>
      rw [hq] at hp
      simp at hp
  | cons r rest =>
      rw [hq] at hp
      simp only [List.head?_cons, Option.map_some'] at hp
      have hP : r.price = P := Option.some.inj hp
      simp [hfil, hq, hP]

theorem save_tx_unchanged (st : ClinicDB) (app : Appointment) (ns : Status) (nn : List Char)
    (h : ns = Status.Completed → txCount st app.patient_id app.service_id ≠ 0) :
    EditAppointmentDialog.save st app ns nn
      = { st with
          appointments := st.appointments.map (fun a =>
            if a.id = app.id then { a with status := ns, notes := nn } else a) } := by
  unfold EditAppointmentDialog.save
  by_cases hns : ns = Status.Completed
  · subst hns
    cases hfil : st.transactions.filter
        (fun t => t.patient_id == app.patient_id && t.service_id == app.service_id) with
    | nil =>
        exact absurd (by unfold txCount; rw [hfil]; rfl) (h rfl)
    | cons x xs =>
        simp [hfil]
  · simp [hns]

theorem txCount_save_le_one (st : ClinicDB) (app : Appointment) (ns : Status)
    (nn : List Char) (pid sid : Nat) (h : txCount st pid sid ≤ 1) :
    txCount (EditAppointmentDialog.save st app ns nn) pid sid ≤ 1 := by
  unfold EditAppointmentDialog.save
  by_cases hns : ns = Status.Completed
  · subst hns
    cases hfil : st.transactions.filter
        (fun t => t.patient_id == app.patient_id && t.service_id == app.service_id) with
    | cons x xs =>
        simpa [txCount, hfil] using h
    | nil =>
        by_cases hmatch : (app.patient_id == pid && app.service_id == sid) = true
        · have hpe : app.patient_id = pid := by
            simp only [Bool.and_eq_true, beq_iff_eq] at hmatch
            exact hmatch.1
          have hse : app.service_id = sid := by
            simp only [Bool.and_eq_true, beq_iff_eq] at hmatch
            exact hmatch.2
          have hzero : st.transactions.filter
              (fun t => t.patient_id == pid && t.service_id == sid) = [] := by
            rw [← hpe, ← hse]
            exact hfil
          simp [txCount, hfil, List.filter_append, hzero, hpe, hse]
        · simp only [Bool.not_eq_true] at hmatch
          simp [txCount, hfil, List.filter_append, hmatch]
          simpa [txCount] using h
  · simp [hns]
    simpa [txCount] using h

/-- C1: completing an appointment with no prior transactions row for its
(patient_id, service_id) pair appends exactly one transactions row whose
amount is the service's current price; completing again for any
appointment with the same pair appends nothing; and one completion step
never raises the per-pair transaction count above one, so sequential
completions create at most one transactions row per pair. -/
theorem save_completed_creates_one_transaction (st : ClinicDB)
    (app : Appointment) (nn : List Char) (P : Nat)
    (h0 : txCount st app.patient_id app.service_id = 0)
    (hp : (st.services.filter (fun s => s.id == app.service_id)).head?.map Service.price
        = some P) :
    (EditAppointmentDialog.save st app Status.Completed nn).transactions
      = st.transactions ++
        [ { id := st.nextTransactionId, patient_id := app.patient_id,
            service_id := app.service_id, amount := P } ] ∧
    (∀ (app2 : Appointment) (nn2 : List Char),
      app2.patient_id = app.patient_id → app2.service_id = app.service_id →
      (EditAppointmentDialog.save (EditAppointmentDialog.save st app Status.Completed nn)
          app2 Status.Completed nn2).transactions
        = (EditAppointmentDialog.save st app Status.Completed nn).transactions) ∧
    (∀ (st2 : ClinicDB) (app2 : Appointment) (ns2 : Status) (nn2 : List Char) (pid sid : Nat),
      txCount st2 pid sid ≤ 1 →
      txCount (EditAppointmentDialog.save st2 app2 ns2 nn2) pid sid ≤ 1) := by
  refine ⟨?_, ?_, ?_⟩
  · rw [save_tx_insert st app nn P h0 hp]
  · intro app2 nn2 hpe hse
    have hcnt : txCount (EditAppointmentDialog.save st app Status.Completed nn)
        app2.patient_id app2.service_id ≠ 0 := by
      rw [hpe, hse, save_tx_insert st app nn P h0 hp]
      unfold txCount at h0 ⊢
      simp only [List.filter_append]
      simp [List.length_eq_zero.mp h0]
    rw [save_tx_unchanged (EditAppointmentDialog.save st app Status.Completed nn)
      app2 Status.Completed nn2 (fun _ => hcnt)]
  · intro st2 app2 ns2 nn2 pid sid hle
    exact txCount_save_le_one st2 app2 ns2 nn2 pid sid hle

/-- Witness for C1 on a one-service, one-appointment database with no
transactions: completing appointment 1 inserts the single 1200.00
transactions row. -/
theorem save_completed_creates_one_transaction_witness :
    (EditAppointmentDialog.save
        { emptyDB with
            services := [ { id := 1, code := "CM-OPH", name := "Oral Prophylaxis",
                            description := "Cleaning & polishing", price := 120000,
                            active := true } ],
            appointments := [ { id := 1, patient_id := 1, service_id := 1,
                                date := "2026-01-15", time := ['1', '4', ':', '3', '0'],
                                notes := [], status := Status.Confirmed } ],
            nextServiceId := 2, nextAppointmentId := 2 }
        { id := 1, patient_id := 1, service_id := 1, date := "2026-01-15",
          time := ['1', '4', ':', '3', '0'], notes := [], status := Status.Confirmed }
        Status.Completed []).transactions
      = [ { id := 1, patient_id := 1, service_id := 1, amount := 120000 } ] :=
  (save_completed_creates_one_transaction
    { emptyDB with
        services := [ { id := 1, code := "CM-OPH", name := "Oral Prophylaxis",
                        description := "Cleaning & polishing", price := 120000,
                        active := true } ],
        appointments := [ { id := 1, patient_id := 1, service_id := 1,
                            date := "2026-01-15", time := ['1', '4', ':', '3', '0'],
                            notes := [], status := Status.Confirmed } ],
        nextServiceId := 2, nextAppointmentId := 2 }
    { id := 1, patient_id := 1, service_id := 1, date := "2026-01-15",
      time := ['1', '4', ':', '3', '0'], notes := [], status := Status.Confirmed }
    [] 120000 (by decide) (by decide)).1

theorem save_appointments_map (st : ClinicDB) (app : Appointment) (ns : Status)
    (nn : List Char) :
    (EditAppointmentDialog.save st app ns nn).appointments
      = st.appointments.map (fun a =>
          if a.id = app.id then { a with status := ns, notes := nn } else a) := by
  unfold EditAppointmentDialog.save
  split
  · dsimp only
    split <;> rfl
  · rfl

/-- C5: the staff edit-appointment save applies any selected status to
the row regardless of its current status — even out of the terminal
states Completed and Cancelled — with no transition-validity check: the
updated row is always present in the result. -/
theorem save_allows_any_status_transition (st : ClinicDB) (app a : Appointment)
    (newStatus : Status) (nn : List Char)
    (ha : a ∈ st.appointments) (hid : a.id = app.id) :
    { a with status := newStatus, notes := nn }
      ∈ (EditAppointmentDialog.save st app newStatus nn).appointments := by
  rw [save_appointments_map]
  have hfa : { a with status := newStatus, notes := nn }
      = (fun a => if a.id = app.id then { a with status := newStatus, notes := nn } else a) a := by
    simp [hid]
  rw [hfa]
  exact List.mem_map_of_mem _ ha

/-- Witness for C5: a transition out of the terminal status Cancelled
back to Pending is applied. -/
theorem save_allows_any_status_transition_witness :
    ({ id := 1, patient_id := 1, service_id := 1, date := "2026-01-15",
       time := ['1', '4', ':', '3', '0'], notes := [],
       status := Status.Pending } : Appointment)
      ∈ (EditAppointmentDialog.save
          { emptyDB with
              appointments := [ { id := 1, patient_id := 1, service_id := 1,
                                  date := "2026-01-15", time := ['1', '4', ':', '3', '0'],
                                  notes := [], status := Status.Cancelled } ],
              nextAppointmentId := 2 }
          { id := 1, patient_id := 1, service_id := 1, date := "2026-01-15",
            time := ['1', '4', ':', '3', '0'], notes := [], status := Status.Cancelled }
          Status.Pending []).appointments :=
  save_allows_any_status_transition
    { emptyDB with
        appointments := [ { id := 1, patient_id := 1, service_id := 1,
                            date := "2026-01-15", time := ['1', '4', ':', '3', '0'],
                            notes := [], status := Status.Cancelled } ],
        nextAppointmentId := 2 }
    { id := 1, patient_id := 1, service_id := 1, date := "2026-01-15",
      time := ['1', '4', ':', '3', '0'], notes := [], status := Status.Cancelled }
    { id := 1, patient_id := 1, service_id := 1, date := "2026-01-15",
      time := ['1', '4', ':', '3', '0'], notes := [], status := Status.Cancelled }
    Status.Pending [] (by decide) (by decide)

theorem saveInsertFault_fault_eq (st : ClinicDB) (app : Appointment) (nn : List Char)
    (h0 : txCount st app.patient_id app.service_id = 0) :
    EditAppointmentDialog.saveInsertFault st app Status.Completed nn true
      = ({ st with
            appointments := st.appointments.map (fun a =>
              if a.id = app.id then { a with status := Status.Completed, notes := nn }
              else a) }, true) := by
  have hfil : st.transactions.filter
      (fun t => t.patient_id == app.patient_id && t.service_id == app.service_id) = [] := by
    unfold txCount at h0
    exact List.length_eq_zero.mp h0
  unfold EditAppointmentDialog.saveInsertFault
  simp [hfil]

/-- C6: when the status update to Completed has been committed and the
following transactions INSERT raises a database error, the error is
reported (no retry, no compensation), the appointment keeps status
Completed, and no transactions row exists for its (patient_id,
service_id) pair. -/
theorem save_insert_failure_keeps_update (st : ClinicDB) (app a : Appointment)
    (nn : List Char)
    (h0 : txCount st app.patient_id app.service_id = 0)
    (ha : a ∈ st.appointments) (hid : a.id = app.id) :
    (EditAppointmentDialog.saveInsertFault st app Status.Completed nn true).2 = true ∧
    (EditAppointmentDialog.saveInsertFault st app Status.Completed nn true).1.transactions
      = st.transactions ∧
    txCount (EditAppointmentDialog.saveInsertFault st app Status.Completed nn true).1
        app.patient_id app.service_id = 0 ∧
    { a with status := Status.Completed, notes := nn }
      ∈ (EditAppointmentDialog.saveInsertFault st app Status.Completed nn true).1.appointments := by
  rw [saveInsertFault_fault_eq st app nn h0]
  refine ⟨rfl, rfl, h0, ?_⟩
  have hfa : { a with status := Status.Completed, notes := nn }
      = (fun a => if a.id = app.id then { a with status := Status.Completed, notes := nn }
          else a) a := by
    simp [hid]
  rw [hfa]
  exact List.mem_map_of_mem _ ha

/-- Witness for C6: on a one-appointment database with no transactions,
a failing INSERT leaves the Completed status in place, an error
reported, and the transactions table empty. -/
theorem save_insert_failure_keeps_update_witness :
    (EditAppointmentDialog.saveInsertFault
        { emptyDB with
            appointments := [ { id := 1, patient_id := 1, service_id := 1,
                                date := "2026-01-15", time := ['1', '4', ':', '3', '0'],
                                notes := [], status := Status.Confirmed } ],
            nextAppointmentId := 2 }
        { id := 1, patient_id := 1, service_id := 1, date := "2026-01-15",
          time := ['1', '4', ':', '3', '0'], notes := [], status := Status.Confirmed }
        Status.Completed [] true).2 = true ∧
    (EditAppointmentDialog.saveInsertFault
        { emptyDB with
            appointments := [ { id := 1, patient_id := 1, service_id := 1,
                                date := "2026-01-15", time := ['1', '4', ':', '3', '0'],
                                notes := [], status := Status.Confirmed } ],
            nextAppointmentId := 2 }
        { id := 1, patient_id := 1, service_id := 1, date := "2026-01-15",
          time := ['1', '4', ':', '3', '0'], notes := [], status := Status.Confirmed }
        Status.Completed [] true).1.transactions = [] := by
  have h := save_insert_failure_keeps_update
    { emptyDB with
        appointments := [ { id := 1, patient_id := 1, service_id := 1,
                            date := "2026-01-15", time := ['1', '4', ':', '3', '0'],
                            notes := [], status := Status.Confirmed } ],
        nextAppointmentId := 2 }
    { id := 1, patient_id := 1, service_id := 1, date := "2026-01-15",
      time := ['1', '4', ':', '3', '0'], notes := [], status := Status.Confirmed }
    { id := 1, patient_id := 1, service_id := 1, date := "2026-01-15",
      time := ['1', '4', ':', '3', '0'], notes := [], status := Status.Confirmed }
    [] (by decide) (by decide) (by decide)
  exact ⟨h.1, h.2.1⟩

/-- C7: cancelling an appointment (after confirming) sets only the
status field of the identified row to Cancelled: every other field of
that row, every other appointment row, all other tables — transactions
in particular — and every AUTO_INCREMENT counter are unchanged, and no
billing or refund side effect occurs. -/
theorem cancel_appointment_sets_only_status (st : ClinicDB) (aid : Nat) :
    (PatientDashboard.cancel_appointment st aid true).staff = st.staff ∧
    (PatientDashboard.cancel_appointment st aid true).patients = st.patients ∧
    (PatientDashboard.cancel_appointment st aid true).services = st.services ∧
    (PatientDashboard.cancel_appointment st aid true).transactions = st.transactions ∧
    (PatientDashboard.cancel_appointment st aid true).nextTransactionId
      = st.nextTransactionId ∧
    (PatientDashboard.cancel_appointment st aid true).appointments.length
      = st.appointments.length ∧
    (∀ a ∈ st.appointments, a.id ≠ aid →
      a ∈ (PatientDashboard.cancel_appointment st aid true).appointments) ∧
    (∀ a ∈ st.appointments, a.id = aid →
      { a with status := Status.Cancelled }
        ∈ (PatientDashboard.cancel_appointment st aid true).appointments) := by
  refine ⟨rfl, rfl, rfl, rfl, rfl, ?_, ?_, ?_⟩
  · simp [PatientDashboard.cancel_appointment]
  · intro a ha hne
    have hfa : a = (fun a =>
        if a.id = aid then { a with status := Status.Cancelled } else a) a := by
      simp [hne]
    rw [PatientDashboard.cancel_appointment]
    simp only [if_pos trivial]
    rw [hfa]
    exact List.mem_map_of_mem _ ha
  · intro a ha heq
    have hfa : { a with status := Status.Cancelled } = (fun a =>
        if a.id = aid then { a with status := Status.Cancelled } else a) a := by
      simp [heq]
    rw [PatientDashboard.cancel_appointment]
    simp only [if_pos trivial]
    rw [hfa]
    exact List.mem_map_of_mem _ ha

/-- Witness for C7 on a two-appointment database: appointment 1 flips to
Cancelled with its other fields intact, appointment 2 is untouched, and
the transactions table stays empty. -/
theorem cancel_appointment_sets_only_status_witness :
    (PatientDashboard.cancel_appointment
        { emptyDB with
            appointments :=
              [ { id := 1, patient_id := 1, service_id := 1, date := "2026-01-15",
                  time := ['1', '4', ':', '3', '0'], notes := [],
                  status := Status.Pending },
                { id := 2, patient_id := 1, service_id := 2, date := "2026-01-16",
                  time := ['0', '9', ':', '0', '0'], notes := [],
                  status := Status.Confirmed } ],
            nextAppointmentId := 3 } 1 true).transactions = [] ∧
    ({ id := 2, patient_id := 1, service_id := 2, date := "2026-01-16",
       time := ['0', '9', ':', '0', '0'], notes := [],
       status := Status.Confirmed } : Appointment)
      ∈ (PatientDashboard.cancel_appointment
          { emptyDB with
              appointments :=
                [ { id := 1, patient_id := 1, service_id := 1, date := "2026-01-15",
                    time := ['1', '4', ':', '3', '0'], notes := [],
                    status := Status.Pending },
                  { id := 2, patient_id := 1, service_id := 2, date := "2026-01-16",
                    time := ['0', '9', ':', '0', '0'], notes := [],
                    status := Status.Confirmed } ],
              nextAppointmentId := 3 } 1 true).appointments ∧
    ({ id := 1, patient_id := 1, service_id := 1, date := "2026-01-15",
       time := ['1', '4', ':', '3', '0'], notes := [],
       status := Status.Cancelled } : Appointment)
      ∈ (PatientDashboard.cancel_appointment
          { emptyDB with
              appointments :=
                [ { id := 1, patient_id := 1, service_id := 1, date := "2026-01-15",
                    time := ['1', '4', ':', '3', '0'], notes := [],
                    status := Status.Pending },
                  { id := 2, patient_id := 1, service_id := 2, date := "2026-01-16",
                    time := ['0', '9', ':', '0', '0'], notes := [],
                    status := Status.Confirmed } ],
              nextAppointmentId := 3 } 1 true).appointments := by
  have h := cancel_appointment_sets_only_status
    { emptyDB with
        appointments :=
          [ { id := 1, patient_id := 1, service_id := 1, date := "2026-01-15",
              time := ['1', '4', ':', '3', '0'], notes := [],
              status := Status.Pending },
            { id := 2, patient_id := 1, service_id := 2, date := "2026-01-16",
              time := ['0', '9', ':', '0', '0'], notes := [],
              status := Status.Confirmed } ],
        nextAppointmentId := 3 } 1
  obtain ⟨h1, h2, h3, h4, h5, h6, h7, h8⟩ := h
  refine ⟨h4, ?_, ?_⟩
  · exact h7 _ (by decide) (by decide)
  · exact h8
      ({ id := 1, patient_id := 1, service_id := 1, date := "2026-01-15",
         time := ['1', '4', ':', '3', '0'], notes := [], status := Status.Pending })
      (by decide) (by decide)

/-- C9: a hard delete of a patients or services row that is referenced
by some appointments (or transactions) row fails with a foreign-key
violation and leaves the database unchanged; once no referencing row
exists, the delete succeeds and removes the row. -/
theorem delete_referenced_row_fails (st : ClinicDB) (pid sid : Nat)
    (hp : StaffDashboard.patientReferenced st pid = true)
    (hs : StaffDashboard.serviceReferenced st sid = true) :
    StaffDashboard.delete_patient st pid true = (st, true) ∧
    StaffDashboard.delete_service st sid true = (st, true) ∧
    (∀ st2 : ClinicDB, StaffDashboard.patientReferenced st2 pid = false →
      StaffDashboard.delete_patient st2 pid true
        = ({ st2 with patients := st2.patients.filter (fun p => !(p.id == pid)) }, false)) ∧
    (∀ st2 : ClinicDB, StaffDashboard.serviceReferenced st2 sid = false →
      StaffDashboard.delete_service st2 sid true
        = ({ st2 with services := st2.services.filter (fun s => !(s.id == sid)) }, false)) :=
  ⟨by simp [StaffDashboard.delete_patient, hp],
   by simp [StaffDashboard.delete_service, hs],
   fun st2 h2 => by simp [StaffDashboard.delete_patient, h2],
   fun st2 h2 => by simp [StaffDashboard.delete_service, h2]⟩

/-- Witness for C9 on a database where one appointment references
patient 1 and service 1: both hard deletes fail and change nothing. -/
theorem delete_referenced_row_fails_witness :
    StaffDashboard.delete_patient
        { emptyDB with
            patients := [ { id := 1, name := "Juan Dela Cruz", age := 35,
                            sex := "Male", email := "patient1@clinic.local",
                            password := "x" } ],
            services := [ { id := 1, code := "CM-OPH", name := "Oral Prophylaxis",
                            description := "Cleaning & polishing", price := 120000,
                            active := true } ],
            appointments := [ { id := 1, patient_id := 1, service_id := 1,
                                date := "2026-01-15", time := ['1', '4', ':', '3', '0'],
                                notes := [], status := Status.Pending } ],
            nextPatientId := 2, nextServiceId := 2, nextAppointmentId := 2 } 1 true
      = ({ emptyDB with
            patients := [ { id := 1, name := "Juan Dela Cruz", age := 35,
                            sex := "Male", email := "patient1@clinic.local",
                            password := "x" } ],
            services := [ { id := 1, code := "CM-OPH", name := "Oral Prophylaxis",
                            description := "Cleaning & polishing", price := 120000,
                            active := true } ],
            appointments := [ { id := 1, patient_id := 1, service_id := 1,
                                date := "2026-01-15", time := ['1', '4', ':', '3', '0'],
                                notes := [], status := Status.Pending } ],
            nextPatientId := 2, nextServiceId := 2, nextAppointmentId := 2 }, true) :=
  (delete_referenced_row_fails
    { emptyDB with
        patients := [ { id := 1, name := "Juan Dela Cruz", age := 35,
                        sex := "Male", email := "patient1@clinic.local",
                        password := "x" } ],
        services := [ { id := 1, code := "CM-OPH", name := "Oral Prophylaxis",
                        description := "Cleaning & polishing", price := 120000,
                        active := true } ],
        appointments := [ { id := 1, patient_id := 1, service_id := 1,
                            date := "2026-01-15", time := ['1', '4', ':', '3', '0'],
                            notes := [], status := Status.Pending } ],
        nextPatientId := 2, nextServiceId := 2, nextAppointmentId := 2 }
    1 1 (by decide) (by decide)).1

/-- C10 (amended): the staff console Add Appointment save performs no
time-format validation: for every time input whatsoever it attempts the
INSERT with the whitespace-stripped input string, and acceptance is
decided solely by the relational engine (abstracted by dbAcceptsTime);
the inserted row carries the schema default status Pending. -/
theorem add_appointment_no_time_validation (st : ClinicDB) (pid sid : Nat)
    (dt : String) (tm notes : List Char) (dbAcceptsTime : List Char → Bool) :
    (dbAcceptsTime (pyStrip tm) = true →
      StaffDashboard.add_appointment_save st pid sid dt tm notes dbAcceptsTime
        = ({ st with
              appointments := st.appointments ++
                [ { id := st.nextAppointmentId, patient_id := pid, service_id := sid,
                    date := dt, time := pyStrip tm, notes := notes,
                    status := Status.Pending } ],
              nextAppointmentId := st.nextAppointmentId + 1 }, false)) ∧
    (dbAcceptsTime (pyStrip tm) = false →
      StaffDashboard.add_appointment_save st pid sid dt tm notes dbAcceptsTime
        = (st, true)) :=
  ⟨fun h => by simp [StaffDashboard.add_appointment_save, h],
   fun h => by simp [StaffDashboard.add_appointment_save, h]⟩

/-- Witness for C10: the malformed time input consisting of the three
letters b, a, d — rejected by the patient dialog's regex — is passed
straight to the INSERT by the staff form and stored when the engine
accepts it. -/
theorem add_appointment_no_time_validation_witness :
    validTimeHHMM ['b', 'a', 'd'] = false ∧
    StaffDashboard.add_appointment_save emptyDB 1 1 "2026-01-15" ['b', 'a', 'd'] []
        (fun _ => true)
      = ({ emptyDB with
            appointments := [ { id := 1, patient_id := 1, service_id := 1,
                                date := "2026-01-15", time := ['b', 'a', 'd'],
                                notes := [], status := Status.Pending } ],
            nextAppointmentId := 2 }, false) :=
  ⟨by decide,
   (add_appointment_no_time_validation emptyDB 1 1 "2026-01-15" ['b', 'a', 'd'] []
      (fun _ => true)).1 rfl⟩

/-- Counterexample to C10 as stated: the raw input consisting of a space
followed by the digit 1 is inserted as the stripped single-character
string 1, not as the raw string itself. -/
theorem add_appointment_raw_string_cex :
    (StaffDashboard.add_appointment_save emptyDB 1 1 "2026-01-15"
        (Char.ofNat 32 :: ['1']) [] (fun _ => true)).1.appointments
      = [ { id := 1, patient_id := 1, service_id := 1, date := "2026-01-15",
            time := ['1'], notes := [], status := Status.Pending } ] ∧
    (['1'] : List Char) ≠ Char.ofNat 32 :: ['1'] := by
  decide
